import Mathlib

/-!
# Verification of the SLO evaluation engine

A shallow embedding, in Lean 4, of the Service-Level-Objective (SLO)
evaluation engine of this repository:

* the Status Evaluator (`getSLOStatus` in
  `packages/api/src/controllers/sloStatus.ts`),
* the Burn-Rate Series Builder (`getSLOBurnRate`, same file),
* the Alert Evaluator (`checkSLOBurnAlerts` in
  `packages/api/src/controllers/sloAlerts.ts`) and the notifier entry
  point (`sendSLOBurnAlert`, same file).

Numbers that are IEEE doubles in the source (counts, percentages, burn
rates, millisecond durations) are modelled as rationals `ℚ`; the one
non-finite value the source produces (`Infinity` as a burn rate) is
modelled by a dedicated constructor of `BurnRate`.  Timestamps are
modelled as integers (milliseconds since the epoch).  Database reads are
modelled by passing the relevant table contents (a list of aggregate
rows, or the two counts a raw-events query returns) as explicit
arguments; the pure computation downstream of each read is translated
statement by statement.
-/

namespace SLOVerification

/-- The three health states of `SLOStatus` (from `models/slo`, as used by
`sloStatus.ts`). -/
inductive SLOStatus where
  | HEALTHY
  | AT_RISK
  | BREACHED
deriving DecidableEq, Repr

/-- A burn rate: either a finite rational or the JavaScript `Infinity`
produced when a 100%-target SLO has any error at all. -/
inductive BurnRate where
  | finite (q : ℚ)
  | inf
deriving DecidableEq, Repr

/-- Alert severity of a burn-alert threshold (`'warning' | 'critical'`). -/
inductive Severity where
  | warning
  | critical
deriving DecidableEq, Repr

/-- One entry of `slo.burnAlerts.thresholds`. -/
structure BurnThreshold where
  burnRate : ℚ
  severity : Severity
deriving DecidableEq, Repr

/-- `slo.lastBurnAlertState`: severity and timestamp (ms) of the most
recently fired alert. -/
structure BurnAlertState where
  severity : Severity
  timestamp : ℤ
deriving DecidableEq, Repr

/-- `slo.burnAlerts`: the burn-alert configuration. -/
structure BurnAlertsConfig where
  enabled : Bool
  thresholds : List BurnThreshold
deriving DecidableEq, Repr

/-- The SLO configuration entity (`ISLO` in `models/slo`; the model file
itself is not part of the evaluated sources, but every field below is
read by `sloStatus.ts` or `sloAlerts.ts` and its type is determined by
that use).  `timeWindowMs` is the millisecond value `ms(slo.timeWindow)`
computed at the top of `getSLOStatus`.  Fields irrelevant to the
evaluation logic (names, ids, `sourceTable`, `metricType`) are omitted. -/
structure ISLO where
  targetValue : ℚ
  timeWindowMs : ℚ
  filter : Option String
  goodCondition : Option String
  numeratorQuery : Option String
  denominatorQuery : Option String
  burnAlerts : Option BurnAlertsConfig
  lastBurnAlertState : Option BurnAlertState
deriving DecidableEq, Repr

/-- The pure payload of `SLOStatusResult`.  The source result also
carries the `slo` document itself and three wall-clock `Date` fields
(`windowStart`, `windowEnd`, `timestamp`), which are ambient-clock
values with no computational content; they are omitted here.
`burnRate` is optional because the no-data early return omits it. -/
structure SLOStatusResult where
  achieved : ℚ
  target : ℚ
  errorBudgetRemaining : ℚ
  status : SLOStatus
  numerator : ℚ
  denominator : ℚ
  burnRate : Option BurnRate
deriving DecidableEq, Repr

/-- `const achieved = denominator > 0 ? (numerator / denominator) * 100 : 100;` -/
def achievedOf (numerator denominator : ℚ) : ℚ :=
  if denominator > 0 then numerator / denominator * 100 else 100

/-- `const errorBudgetTotal = (1 - slo.targetValue / 100) * timeWindowMs;` -/
def errorBudgetTotalOf (slo : ISLO) : ℚ :=
  (1 - slo.targetValue / 100) * slo.timeWindowMs

/-- `const errorBudgetUsed = (1 - achieved / 100) * timeWindowMs;` -/
def errorBudgetUsedOf (slo : ISLO) (achieved : ℚ) : ℚ :=
  (1 - achieved / 100) * slo.timeWindowMs

/-- `const errorBudgetRemaining = Math.max(0, errorBudgetTotal - errorBudgetUsed);` -/
def errorBudgetRemainingOf (slo : ISLO) (achieved : ℚ) : ℚ :=
  max 0 (errorBudgetTotalOf slo - errorBudgetUsedOf slo achieved)

/-- `errorBudgetTotal > 0 ? (errorBudgetRemaining / errorBudgetTotal) * 100 : 0` -/
def errorBudgetRemainingPercentOf (slo : ISLO) (achieved : ℚ) : ℚ :=
  if errorBudgetTotalOf slo > 0 then
    errorBudgetRemainingOf slo achieved / errorBudgetTotalOf slo * 100
  else 0

/-- `const expectedErrorRate = (1 - slo.targetValue / 100);` -/
def expectedErrorRateOf (slo : ISLO) : ℚ :=
  1 - slo.targetValue / 100

/-- `const actualErrorRate = denominator > 0 ? (1 - numerator / denominator) : 0;` -/
def actualErrorRateOf (numerator denominator : ℚ) : ℚ :=
  if denominator > 0 then 1 - numerator / denominator else 0

/-- `expectedErrorRate > 0 ? actualErrorRate / expectedErrorRate
     : (actualErrorRate > 0 ? Infinity : 0)` -/
def burnRateOf (slo : ISLO) (numerator denominator : ℚ) : BurnRate :=
  if expectedErrorRateOf slo > 0 then
    .finite (actualErrorRateOf numerator denominator / expectedErrorRateOf slo)
  else if actualErrorRateOf numerator denominator > 0 then .inf
  else .finite 0

/-- The status classification of `getSLOStatus`:
`achieved >= slo.targetValue` → `HEALTHY`; else
`errorBudgetRemainingPercent > 0 && errorBudgetRemainingPercent <= 10`
→ `AT_RISK`; else `BREACHED`. -/
def statusOf (slo : ISLO) (achieved ebrPercent : ℚ) : SLOStatus :=
  if achieved ≥ slo.targetValue then .HEALTHY
  else if ebrPercent > 0 ∧ ebrPercent ≤ 10 then .AT_RISK
  else .BREACHED

/-- The computation `getSLOStatus` performs once `(numerator, denominator)`
has been obtained from storage: the `denominator === 0 && numerator === 0`
early return, then the achieved / error-budget / burn-rate / status block
(lines 104–164 of `sloStatus.ts`). -/
def computeSLOStatus (slo : ISLO) (numerator denominator : ℚ) : SLOStatusResult :=
  if denominator = 0 ∧ numerator = 0 then
    { achieved := 100
      target := slo.targetValue
      errorBudgetRemaining := 100
      status := .HEALTHY
      numerator := 0
      denominator := 0
      burnRate := none }
  else
    { achieved := achievedOf numerator denominator
      target := slo.targetValue
      errorBudgetRemaining :=
        errorBudgetRemainingPercentOf slo (achievedOf numerator denominator)
      status :=
        statusOf slo (achievedOf numerator denominator)
          (errorBudgetRemainingPercentOf slo (achievedOf numerator denominator))
      numerator := numerator
      denominator := denominator
      burnRate := some (burnRateOf slo numerator denominator) }

/-- A concrete SLO used to instantiate hypotheses: 99.9% target over a
30-day window, builder mode, no burn alerts. -/
def exampleSLO : ISLO :=
  { targetValue := 999 / 10
    timeWindowMs := 2592000000
    filter := some "ServiceName = checkout"
    goodCondition := some "StatusCode < 500"
    numeratorQuery := none
    denominatorQuery := none
    burnAlerts := none
    lastBurnAlertState := none }

lemma computeSLOStatus_achieved (slo : ISLO) (num den : ℚ) (h : 0 < den) :
    (computeSLOStatus slo num den).achieved = achievedOf num den := by
  unfold computeSLOStatus
  rw [if_neg (by rintro ⟨h0, _⟩; exact absurd h0 (ne_of_gt h))]

lemma computeSLOStatus_ebr (slo : ISLO) (num den : ℚ) (h : 0 < den) :
    (computeSLOStatus slo num den).errorBudgetRemaining =
      errorBudgetRemainingPercentOf slo (achievedOf num den) := by
  unfold computeSLOStatus
  rw [if_neg (by rintro ⟨h0, _⟩; exact absurd h0 (ne_of_gt h))]

lemma computeSLOStatus_status (slo : ISLO) (num den : ℚ) (h : 0 < den) :
    (computeSLOStatus slo num den).status =
      statusOf slo (achievedOf num den)
        (errorBudgetRemainingPercentOf slo (achievedOf num den)) := by
  unfold computeSLOStatus
  rw [if_neg (by rintro ⟨h0, _⟩; exact absurd h0 (ne_of_gt h))]

lemma computeSLOStatus_burnRate (slo : ISLO) (num den : ℚ) (h : 0 < den) :
    (computeSLOStatus slo num den).burnRate = some (burnRateOf slo num den) := by
  unfold computeSLOStatus
  rw [if_neg (by rintro ⟨h0, _⟩; exact absurd h0 (ne_of_gt h))]

lemma achievedOf_den_pos (num den : ℚ) (h : 0 < den) :
    achievedOf num den = 100 * num / den := by
  unfold achievedOf
  rw [if_pos h]
  ring

lemma statusOf_healthy_iff (slo : ISLO) (achieved ebrPercent : ℚ) :
    statusOf slo achieved ebrPercent = .HEALTHY ↔ slo.targetValue ≤ achieved := by
  unfold statusOf
  split_ifs with h1 h2 <;> simp_all

/-- C1: for `denominator > 0`, `achieved = 100 × numerator / denominator`,
and the classification follows the precedence `achieved ≥ target →
HEALTHY`, else `0 < errorBudgetRemaining% ≤ 10 → AT_RISK`, else
`BREACHED`; in particular `errorBudgetRemaining% = 0` yields `BREACHED`. -/
theorem getSLOStatus_classification (slo : ISLO) (num den : ℚ) (hden : 0 < den) :
    (computeSLOStatus slo num den).achieved = 100 * num / den ∧
    ((computeSLOStatus slo num den).status = .HEALTHY ↔
      slo.targetValue ≤ (computeSLOStatus slo num den).achieved) ∧
    (¬ slo.targetValue ≤ (computeSLOStatus slo num den).achieved →
      (computeSLOStatus slo num den).status =
        (if 0 < (computeSLOStatus slo num den).errorBudgetRemaining ∧
            (computeSLOStatus slo num den).errorBudgetRemaining ≤ 10
         then SLOStatus.AT_RISK else SLOStatus.BREACHED)) ∧
    (¬ slo.targetValue ≤ (computeSLOStatus slo num den).achieved →
      (computeSLOStatus slo num den).errorBudgetRemaining = 0 →
      (computeSLOStatus slo num den).status = .BREACHED) := by
  rw [computeSLOStatus_achieved slo num den hden, computeSLOStatus_ebr slo num den hden,
    computeSLOStatus_status slo num den hden]
  refine ⟨achievedOf_den_pos num den hden, statusOf_healthy_iff slo _ _, ?_, ?_⟩
  · intro hlt
    unfold statusOf
    rw [if_neg hlt]
  · intro hlt hzero
    unfold statusOf
    rw [if_neg hlt, if_neg]
    rw [hzero]
    rintro ⟨h0, _⟩
    exact absurd h0 (lt_irrefl 0)

/-- Witness for C1 at a concrete input (`numerator = 1`, `denominator = 2`). -/
theorem getSLOStatus_classification_witness :
    (computeSLOStatus exampleSLO 1 2).achieved = 100 * 1 / 2 ∧
    ((computeSLOStatus exampleSLO 1 2).status = .HEALTHY ↔
      exampleSLO.targetValue ≤ (computeSLOStatus exampleSLO 1 2).achieved) ∧
    (¬ exampleSLO.targetValue ≤ (computeSLOStatus exampleSLO 1 2).achieved →
      (computeSLOStatus exampleSLO 1 2).status =
        (if 0 < (computeSLOStatus exampleSLO 1 2).errorBudgetRemaining ∧
            (computeSLOStatus exampleSLO 1 2).errorBudgetRemaining ≤ 10
         then SLOStatus.AT_RISK else SLOStatus.BREACHED)) ∧
    (¬ exampleSLO.targetValue ≤ (computeSLOStatus exampleSLO 1 2).achieved →
      (computeSLOStatus exampleSLO 1 2).errorBudgetRemaining = 0 →
      (computeSLOStatus exampleSLO 1 2).status = .BREACHED) :=
  getSLOStatus_classification exampleSLO 1 2 (by norm_num)

/-- C2: when the summed counts are `numerator = 0` and `denominator = 0`,
the result is the default: `HEALTHY`, `achieved = 100`,
`errorBudgetRemaining = 100` (the division guarded behind
`denominator > 0` is never reached). -/
theorem getSLOStatus_no_data (slo : ISLO) (num den : ℚ)
    (hn : num = 0) (hd : den = 0) :
    (computeSLOStatus slo num den).status = .HEALTHY ∧
    (computeSLOStatus slo num den).achieved = 100 ∧
    (computeSLOStatus slo num den).errorBudgetRemaining = 100 ∧
    computeSLOStatus slo num den =
      { achieved := 100
        target := slo.targetValue
        errorBudgetRemaining := 100
        status := .HEALTHY
        numerator := 0
        denominator := 0
        burnRate := none } := by
  subst hn hd
  refine ⟨?_, ?_, ?_, ?_⟩ <;> simp [computeSLOStatus]

/-- Witness for C2 at the concrete input `(0, 0)`. -/
theorem getSLOStatus_no_data_witness :
    (computeSLOStatus exampleSLO 0 0).status = .HEALTHY ∧
    (computeSLOStatus exampleSLO 0 0).achieved = 100 ∧
    (computeSLOStatus exampleSLO 0 0).errorBudgetRemaining = 100 ∧
    computeSLOStatus exampleSLO 0 0 =
      { achieved := 100
        target := exampleSLO.targetValue
        errorBudgetRemaining := 100
        status := .HEALTHY
        numerator := 0
        denominator := 0
        burnRate := none } :=
  getSLOStatus_no_data exampleSLO 0 0 rfl rfl

/-- Like `exampleSLO` but with a 100% target, for the burn-rate boundary. -/
def exampleSLO100 : ISLO :=
  { exampleSLO with targetValue := 100 }

lemma expectedErrorRateOf_target100 (slo : ISLO) (ht : slo.targetValue = 100) :
    expectedErrorRateOf slo = 0 := by
  unfold expectedErrorRateOf
  rw [ht]
  norm_num

lemma expectedErrorRateOf_pos (slo : ISLO) (ht : slo.targetValue < 100) :
    0 < expectedErrorRateOf slo := by
  unfold expectedErrorRateOf
  have h : slo.targetValue / 100 < 1 := (div_lt_one (by norm_num)).2 ht
  linarith

/-- C3: burn-rate edge cases of `getSLOStatus` for `denominator > 0`.
With a 100% target (`expectedErrorRate = 0`): no errors
(`numerator = denominator`) gives burn rate `0`, any error
(`numerator < denominator`) gives `+∞`.  With `target < 100` the burn
rate is `actualErrorRate / expectedErrorRate` where
`actualErrorRate = 1 − numerator/denominator`. -/
theorem getSLOStatus_burnRate_boundary (slo : ISLO) (num den : ℚ) (hden : 0 < den) :
    (slo.targetValue = 100 → num = den →
      (computeSLOStatus slo num den).burnRate = some (.finite 0)) ∧
    (slo.targetValue = 100 → num < den →
      (computeSLOStatus slo num den).burnRate = some .inf) ∧
    (slo.targetValue < 100 →
      (computeSLOStatus slo num den).burnRate =
        some (.finite ((1 - num / den) / (1 - slo.targetValue / 100)))) := by
  rw [computeSLOStatus_burnRate slo num den hden]
  refine ⟨?_, ?_, ?_⟩
  · intro ht he
    have hact : actualErrorRateOf num den = 0 := by
      unfold actualErrorRateOf
      rw [if_pos hden, he, div_self (ne_of_gt hden)]
      ring
    unfold burnRateOf
    rw [expectedErrorRateOf_target100 slo ht, hact]
    norm_num
  · intro ht hlt
    have hact : 0 < actualErrorRateOf num den := by
      unfold actualErrorRateOf
      rw [if_pos hden]
      have h : num / den < 1 := (div_lt_one hden).2 hlt
      linarith
    unfold burnRateOf
    rw [expectedErrorRateOf_target100 slo ht]
    norm_num
    exact fun hle => absurd hle (not_le.mpr hact)
  · intro ht
    have hexp := expectedErrorRateOf_pos slo ht
    have hact : actualErrorRateOf num den = 1 - num / den := by
      unfold actualErrorRateOf
      rw [if_pos hden]
    unfold burnRateOf
    rw [if_pos hexp, hact]
    unfold expectedErrorRateOf
    rfl

/-- Witness for C3 at `target = 100`, `numerator = 1`, `denominator = 2`. -/
theorem getSLOStatus_burnRate_boundary_witness :
    (exampleSLO100.targetValue = 100 → (1 : ℚ) = 2 →
      (computeSLOStatus exampleSLO100 1 2).burnRate = some (.finite 0)) ∧
    (exampleSLO100.targetValue = 100 → (1 : ℚ) < 2 →
      (computeSLOStatus exampleSLO100 1 2).burnRate = some .inf) ∧
    (exampleSLO100.targetValue < 100 →
      (computeSLOStatus exampleSLO100 1 2).burnRate =
        some (.finite ((1 - 1 / 2) / (1 - exampleSLO100.targetValue / 100)))) :=
  getSLOStatus_burnRate_boundary exampleSLO100 1 2 (by norm_num)

/-- C4: with `denominator > 0` (and the time window a nonnegative
duration), `getSLOStatus` can never classify `AT_RISK`: whenever
`achieved < target`, the `max(0, …)` clamp forces the error-budget
percentage to `0` and classification falls through to `BREACHED`. -/
theorem getSLOStatus_at_risk_unreachable (slo : ISLO) (num den : ℚ)
    (hden : 0 < den) (hW : 0 ≤ slo.timeWindowMs) :
    (computeSLOStatus slo num den).status ≠ .AT_RISK := by
  rw [computeSLOStatus_status slo num den hden]
  unfold statusOf
  split_ifs with h1 h2
  · simp
  · exfalso
    set a := achievedOf num den with ha
    have hlt : a < slo.targetValue := not_le.mp h1
    have hpct := h2.1
    unfold errorBudgetRemainingPercentOf at hpct
    by_cases htot : errorBudgetTotalOf slo > 0
    · rw [if_pos htot] at hpct
      have hrem : 0 < errorBudgetRemainingOf slo a := by
        by_contra hr
        push_neg at hr
        have : errorBudgetRemainingOf slo a / errorBudgetTotalOf slo * 100 ≤ 0 := by
          have hq : errorBudgetRemainingOf slo a / errorBudgetTotalOf slo ≤ 0 :=
            div_nonpos_of_nonpos_of_nonneg hr (le_of_lt htot)
          linarith
        linarith
      have hdiff : 0 < errorBudgetTotalOf slo - errorBudgetUsedOf slo a := by
        unfold errorBudgetRemainingOf at hrem
        rcases lt_max_iff.mp hrem with h | h
        · exact absurd h (lt_irrefl 0)
        · exact h
      unfold errorBudgetTotalOf errorBudgetUsedOf at hdiff
      nlinarith [mul_nonneg (sub_nonneg.mpr (le_of_lt hlt)) hW]
    · rw [if_neg htot] at hpct
      exact absurd hpct (lt_irrefl 0)
  · simp

/-- Witness for C4 at a concrete input. -/
theorem getSLOStatus_at_risk_unreachable_witness :
    (computeSLOStatus exampleSLO 1 2).status ≠ .AT_RISK :=
  getSLOStatus_at_risk_unreachable exampleSLO 1 2 (by norm_num) (by norm_num [exampleSLO])

/-- One row of the `default.slo_aggregates` table:
`(slo_id, timestamp, numerator_count, denominator_count)`. -/
structure AggregateRow where
  slo_id : String
  timestamp : ℤ
  numerator_count : ℕ
  denominator_count : ℕ
deriving DecidableEq, Repr

/-- `sum(numerator_count)` over a set of rows. -/
def sumNumerator (rows : List AggregateRow) : ℕ :=
  (rows.map (fun r => r.numerator_count)).sum

/-- `sum(denominator_count)` over a set of rows. -/
def sumDenominator (rows : List AggregateRow) : ℕ :=
  (rows.map (fun r => r.denominator_count)).sum

/-- The rows selected by the status query of `getSLOStatus`:
`WHERE slo_id = {sloId} AND timestamp >= {windowStart}` (no upper
bound). -/
def statusWindowRows (rows : List AggregateRow) (sloId : String)
    (windowStart : ℤ) : List AggregateRow :=
  rows.filter (fun r => decide (r.slo_id = sloId) && decide (windowStart ≤ r.timestamp))

/-- The rows selected by the series query of `getSLOBurnRate`:
`WHERE slo_id = {sloId} AND timestamp >= {timeStart} AND timestamp <= {timeEnd}`. -/
def burnRangeRows (rows : List AggregateRow) (sloId : String)
    (timeStart timeEnd : ℤ) : List AggregateRow :=
  rows.filter (fun r =>
    decide (r.slo_id = sloId) && decide (timeStart ≤ r.timestamp) &&
      decide (r.timestamp ≤ timeEnd))

/-- `ORDER BY timestamp ASC`. -/
def sortTimestamps (l : List ℤ) : List ℤ :=
  List.insertionSort (fun a b => a ≤ b) l

/-- One row of the result set of the series query:
`SELECT timestamp, sum(numerator_count) as numerator,
sum(denominator_count) as denominator … GROUP BY timestamp
ORDER BY timestamp ASC`. -/
structure BurnRateQueryRow where
  timestamp : ℤ
  numerator : ℕ
  denominator : ℕ
deriving DecidableEq, Repr

/-- The grouped-and-ordered result set of the series query of
`getSLOBurnRate`. -/
def burnRateQueryRows (rows : List AggregateRow) (sloId : String)
    (timeStart timeEnd : ℤ) : List BurnRateQueryRow :=
  let filtered := burnRangeRows rows sloId timeStart timeEnd
  (sortTimestamps ((filtered.map (fun r => r.timestamp)).dedup)).map fun t =>
    { timestamp := t
      numerator := sumNumerator (filtered.filter (fun r => decide (r.timestamp = t)))
      denominator := sumDenominator (filtered.filter (fun r => decide (r.timestamp = t))) }

/-- One point returned by `getSLOBurnRate`. -/
structure BurnPoint where
  timestamp : ℤ
  achieved : ℚ
  burnRate : BurnRate
  errorBudgetRemaining : ℚ
deriving DecidableEq, Repr

/-- The Burn-Rate Series Builder (`getSLOBurnRate`, lines 209–261 of
`sloStatus.ts`): map each grouped query row to a point, applying the
per-bucket `achieved` and burn-rate formulas; `errorBudgetRemaining`
is the literal `0` of the source (`// Not computed per-bucket`). -/
def getSLOBurnRateModel (slo : ISLO) (rows : List AggregateRow) (sloId : String)
    (timeStart timeEnd : ℤ) : List BurnPoint :=
  (burnRateQueryRows rows sloId timeStart timeEnd).map fun d =>
    { timestamp := d.timestamp
      achieved := achievedOf (d.numerator : ℚ) (d.denominator : ℚ)
      burnRate := burnRateOf slo (d.numerator : ℚ) (d.denominator : ℚ)
      errorBudgetRemaining := 0 }

/-- Outcome of a `getSLOStatus` call.  `notFound` is the `null` return
for a missing SLO.  `invalidConfiguration` comes from the specification
error taxonomy (a rejection of real-time mode on a raw-mode SLO); it is
included so that claims about such a rejection can be stated — the
source has no code path producing it. -/
inductive SLOStatusOutcome where
  | notFound
  | invalidConfiguration
  | result (r : SLOStatusResult)
deriving DecidableEq, Repr

/-- The `(numerator, denominator)` pair the real-time raw-events query
returns. -/
structure RawCounts where
  numerator : ℕ
  denominator : ℕ
deriving DecidableEq, Repr

/-- `getSLOStatus` with the storage reads made explicit: `sloLookup` is
the document-store read, `raw` the raw-events counts the real-time query
would return, `rows` the aggregate table.  The branch condition is the
source's `realtime && slo.filter && slo.goodCondition`; when it fails
the function silently computes from aggregates. -/
def getSLOStatusModel (sloLookup : Option ISLO) (realtime : Bool)
    (raw : RawCounts) (rows : List AggregateRow) (sloId : String)
    (windowStart : ℤ) : SLOStatusOutcome :=
  match sloLookup with
  | none => .notFound
  | some slo =>
    if realtime && slo.filter.isSome && slo.goodCondition.isSome then
      .result (computeSLOStatus slo (raw.numerator : ℚ) (raw.denominator : ℚ))
    else
      .result (computeSLOStatus slo
        (sumNumerator (statusWindowRows rows sloId windowStart) : ℚ)
        (sumDenominator (statusWindowRows rows sloId windowStart) : ℚ))

/-- A one-row aggregate table used for witnesses. -/
def exampleRows : List AggregateRow :=
  [{ slo_id := "s", timestamp := 5, numerator_count := 1, denominator_count := 2 }]

/-- A raw-mode SLO (`filter`/`goodCondition` absent, the two raw queries
present). -/
def rawModeSLO : ISLO :=
  { targetValue := 99
    timeWindowMs := 2592000000
    filter := none
    goodCondition := none
    numeratorQuery := some "SELECT countIf(ok) FROM events"
    denominatorQuery := some "SELECT count() FROM events"
    burnAlerts := none
    lastBurnAlertState := none }

lemma sum_map_ite_of_not_mem {κ : Type} [DecidableEq κ] (ks : List κ) (a : κ)
    (c : ℕ) (ha : a ∉ ks) :
    (ks.map (fun t => if a = t then c else 0)).sum = 0 := by
  induction ks with
  | nil => rfl
  | cons k ks ih =>
    have hak : a ≠ k := fun h => ha (h ▸ List.mem_cons_self k ks)
    simp only [List.map_cons, List.sum_cons, if_neg hak]
    rw [ih (fun h => ha (List.mem_cons_of_mem k h))]

lemma sum_map_ite_of_nodup {κ : Type} [DecidableEq κ] (ks : List κ) (a : κ)
    (c : ℕ) (hnd : ks.Nodup) (ha : a ∈ ks) :
    (ks.map (fun t => if a = t then c else 0)).sum = c := by
  induction ks with
  | nil => cases ha
  | cons k ks ih =>
    rcases List.mem_cons.mp ha with h | h
    · subst h
      simp only [List.map_cons, List.sum_cons, if_pos rfl]
      rw [sum_map_ite_of_not_mem ks a c (List.nodup_cons.mp hnd).1]
      simp
    · have hak : a ≠ k := by
        rintro rfl
        exact (List.nodup_cons.mp hnd).1 h
      simp only [List.map_cons, List.sum_cons, if_neg hak]
      rw [ih (List.nodup_cons.mp hnd).2 h, zero_add]

/-- Summing a per-group aggregate over the deduplicated keys (`GROUP BY`)
recovers the total sum over all rows. -/
lemma sum_over_groups {α κ : Type} [DecidableEq κ] (key : α → κ) (f : α → ℕ) :
    ∀ l : List α,
      (((l.map key).dedup).map
          (fun t => ((l.filter (fun r => decide (key r = t))).map f).sum)).sum
        = (l.map f).sum := by
  intro l
  induction l with
  | nil => rfl
  | cons a l ih =>
    have hinner : ∀ t : κ,
        ((List.filter (fun r => decide (key r = t)) (a :: l)).map f).sum
          = (if key a = t then f a else 0)
            + ((List.filter (fun r => decide (key r = t)) l).map f).sum := by
      intro t
      by_cases h : key a = t
      · simp [List.filter_cons, h]
      · simp [List.filter_cons, h]
    have hsplit :
        ((key a :: l.map key).dedup.map
            (fun t => ((List.filter (fun r => decide (key r = t)) (a :: l)).map f).sum)).sum
          = ((key a :: l.map key).dedup.map (fun t => if key a = t then f a else 0)).sum
            + ((key a :: l.map key).dedup.map
                (fun t => ((List.filter (fun r => decide (key r = t)) l).map f).sum)).sum := by
      rw [← List.sum_map_add]
      congr 1
      exact List.map_congr_left (fun t _ => hinner t)
    rw [List.map_cons, hsplit]
    have hmem : key a ∈ ((key a :: l.map key)).dedup :=
      List.mem_dedup.mpr (List.mem_cons_self _ _)
    rw [sum_map_ite_of_nodup _ _ _ (List.nodup_dedup _) hmem]
    by_cases hka : key a ∈ l.map key
    · rw [List.dedup_cons_of_mem hka, ih, List.map_cons, List.sum_cons]
    · rw [List.dedup_cons_of_not_mem hka, List.map_cons, List.sum_cons]
      have hnil : List.filter (fun r => decide (key r = key a)) l = [] := by
        rw [List.filter_eq_nil_iff]
        intro r hr
        simp only [decide_eq_true_eq]
        intro hkey
        exact hka (hkey ▸ List.mem_map_of_mem key hr)
      rw [hnil]
      simp only [List.map_nil, List.sum_nil, add_zero, zero_add]
      rw [ih, List.map_cons, List.sum_cons]

lemma sum_map_sortTimestamps (ks : List ℤ) (g : ℤ → ℕ) :
    ((sortTimestamps ks).map g).sum = (ks.map g).sum :=
  List.Perm.sum_eq (List.Perm.map g (List.perm_insertionSort _ ks))

/-- C5: over one aggregate table and one time range, the per-bucket sums
of the Burn-Rate Series Builder add up to the windowed sums of the
Status Evaluator.  The status query has no upper time bound, so the
agreement is over ranges whose upper end `timeEnd` is at or after every
stored row of the SLO (in the source, `timeEnd` at or after "now"). -/
theorem burnRate_status_roundtrip (rows : List AggregateRow) (sloId : String)
    (windowStart timeEnd : ℤ)
    (hle : ∀ r ∈ rows, r.slo_id = sloId → r.timestamp ≤ timeEnd) :
    ((burnRateQueryRows rows sloId windowStart timeEnd).map
        (fun d => d.numerator)).sum
      = sumNumerator (statusWindowRows rows sloId windowStart) ∧
    ((burnRateQueryRows rows sloId windowStart timeEnd).map
        (fun d => d.denominator)).sum
      = sumDenominator (statusWindowRows rows sloId windowStart) := by
  have hfe : burnRangeRows rows sloId windowStart timeEnd
      = statusWindowRows rows sloId windowStart := by
    unfold burnRangeRows statusWindowRows
    apply List.filter_congr
    intro r hr
    by_cases h1 : r.slo_id = sloId
    · by_cases h2 : windowStart ≤ r.timestamp
      · simp [h1, h2, hle r hr h1]
      · simp [h1, h2]
    · simp [h1]
  constructor
  · unfold burnRateQueryRows
    rw [hfe, List.map_map]
    rw [sum_map_sortTimestamps]
    exact sum_over_groups (fun r => r.timestamp)
      (fun r => r.numerator_count) (statusWindowRows rows sloId windowStart)
  · unfold burnRateQueryRows
    rw [hfe, List.map_map]
    rw [sum_map_sortTimestamps]
    exact sum_over_groups (fun r => r.timestamp)
      (fun r => r.denominator_count) (statusWindowRows rows sloId windowStart)

/-- Witness for C5 on the one-row example table. -/
theorem burnRate_status_roundtrip_witness :
    ((burnRateQueryRows exampleRows "s" 0 10).map (fun d => d.numerator)).sum
      = sumNumerator (statusWindowRows exampleRows "s" 0) ∧
    ((burnRateQueryRows exampleRows "s" 0 10).map (fun d => d.denominator)).sum
      = sumDenominator (statusWindowRows exampleRows "s" 0) :=
  burnRate_status_roundtrip exampleRows "s" 0 10 (by decide)

/-- C9: every point of the burn-rate series has
`errorBudgetRemaining = 0`, the fixed per-bucket placeholder, whatever
the bucket's counts are. -/
theorem getSLOBurnRate_ebr_placeholder (slo : ISLO) (rows : List AggregateRow)
    (sloId : String) (timeStart timeEnd : ℤ) :
    ∀ p ∈ getSLOBurnRateModel slo rows sloId timeStart timeEnd,
      p.errorBudgetRemaining = 0 := by
  intro p hp
  unfold getSLOBurnRateModel at hp
  rcases List.mem_map.mp hp with ⟨d, _, rfl⟩
  rfl

/-- The point the series builder produces from the one-row example
table. -/
def examplePoint : BurnPoint :=
  { timestamp := 5
    achieved := achievedOf ((1 : ℕ) : ℚ) ((2 : ℕ) : ℚ)
    burnRate := burnRateOf exampleSLO ((1 : ℕ) : ℚ) ((2 : ℕ) : ℚ)
    errorBudgetRemaining := 0 }

/-- Witness for C9: the concrete point produced from the one-row table. -/
theorem getSLOBurnRate_ebr_placeholder_witness :
    examplePoint ∈ getSLOBurnRateModel exampleSLO exampleRows "s" 0 10 ∧
    examplePoint.errorBudgetRemaining = 0 := by
  have hmem : examplePoint ∈ getSLOBurnRateModel exampleSLO exampleRows "s" 0 10 := by
    unfold getSLOBurnRateModel burnRateQueryRows burnRangeRows exampleRows
      sortTimestamps sumNumerator sumDenominator examplePoint
    simp [List.insertionSort, List.filter]
  exact ⟨hmem,
    getSLOBurnRate_ebr_placeholder exampleSLO exampleRows "s" 0 10 _ hmem⟩

/-- C6 counterexample: for a raw-mode SLO (no `filter`, no
`goodCondition`) with the real-time flag set, `getSLOStatus` does not
reject with `InvalidConfiguration`; it returns a normal result computed
from the aggregate table. -/
theorem realtime_raw_mode_not_rejected :
    getSLOStatusModel (some rawModeSLO) true ⟨3, 4⟩ exampleRows "s" 0
        ≠ .invalidConfiguration ∧
    getSLOStatusModel (some rawModeSLO) true ⟨3, 4⟩ exampleRows "s" 0
      = .result (computeSLOStatus rawModeSLO
          ((sumNumerator (statusWindowRows exampleRows "s" 0) : ℕ) : ℚ)
          ((sumDenominator (statusWindowRows exampleRows "s" 0) : ℕ) : ℚ)) :=
  ⟨by decide, rfl⟩

/-- C6 amended: with the real-time flag set on an SLO that is not in
builder mode (its `filter` or `goodCondition` is absent), `getSLOStatus`
silently falls back to the aggregated-mode computation — the real-time
branch requires both builder fields, and no rejection path exists. -/
theorem realtime_raw_mode_falls_back (slo : ISLO) (raw : RawCounts)
    (rows : List AggregateRow) (sloId : String) (windowStart : ℤ)
    (h : slo.filter = none ∨ slo.goodCondition = none) :
    getSLOStatusModel (some slo) true raw rows sloId windowStart
      = .result (computeSLOStatus slo
          ((sumNumerator (statusWindowRows rows sloId windowStart) : ℕ) : ℚ)
          ((sumDenominator (statusWindowRows rows sloId windowStart) : ℕ) : ℚ)) := by
  unfold getSLOStatusModel
  rcases h with h | h <;> simp [h]

/-- Witness for the amended C6 at the concrete raw-mode SLO. -/
theorem realtime_raw_mode_falls_back_witness :
    getSLOStatusModel (some rawModeSLO) true ⟨3, 4⟩ exampleRows "s" 0
      = .result (computeSLOStatus rawModeSLO
          ((sumNumerator (statusWindowRows exampleRows "s" 0) : ℕ) : ℚ)
          ((sumDenominator (statusWindowRows exampleRows "s" 0) : ℕ) : ℚ)) :=
  realtime_raw_mode_falls_back rawModeSLO ⟨3, 4⟩ exampleRows "s" 0 (Or.inl rfl)

/-- A notification webhook (`IWebhook`); only its identity matters to the
alert decision. -/
structure IWebhook where
  id : String
deriving DecidableEq, Repr

/-- The return value of `checkSLOBurnAlerts`:
`{ shouldAlert: boolean; severity?: 'warning' | 'critical' }`. -/
structure CheckResult where
  shouldAlert : Bool
  severity : Option Severity
deriving DecidableEq, Repr

/-- The descending order used by
`[...slo.burnAlerts.thresholds].sort((a, b) => b.burnRate - a.burnRate)`:
`a` comes no later than `b` when `a.burnRate ≥ b.burnRate`. -/
def thresholdGE (a b : BurnThreshold) : Prop := b.burnRate ≤ a.burnRate

instance : DecidableRel thresholdGE := fun a b =>
  inferInstanceAs (Decidable (b.burnRate ≤ a.burnRate))

instance : IsTotal BurnThreshold thresholdGE :=
  ⟨fun a b => le_total b.burnRate a.burnRate⟩

instance : IsTrans BurnThreshold thresholdGE :=
  ⟨fun _ _ _ hab hbc => le_trans hbc hab⟩

/-- The sorted copy of the threshold ladder (a stable sort, like the
JavaScript `Array.prototype.sort` on a copied array). -/
def sortThresholdsDesc (l : List BurnThreshold) : List BurnThreshold :=
  List.insertionSort thresholdGE l

/-- The candidate threshold: the first entry of the descending ladder
with `burnRate >= threshold.burnRate`. -/
def matchedThreshold (thresholds : List BurnThreshold) (burnRate : ℚ) :
    Option BurnThreshold :=
  (sortThresholdsDesc thresholds).find? (fun t => decide (t.burnRate ≤ burnRate))

/-- The de-duplication test:
`!lastAlert || lastAlert.severity !== threshold.severity ||
lastAlert.timestamp < oneHourAgo` with
`oneHourAgo = Date.now() - 60 * 60 * 1000`. -/
def shouldAlertNow (lastAlert : Option BurnAlertState) (severity : Severity)
    (now : ℤ) : Bool :=
  match lastAlert with
  | none => true
  | some la =>
    decide (la.severity ≠ severity) || decide (la.timestamp < now - 60 * 60 * 1000)

/-- `checkSLOBurnAlerts` (lines 74–127 of `sloAlerts.ts`): preconditions,
then the first-match scan of the sorted ladder; the loop returns an
alert at the first matching threshold when the de-duplication test
passes and otherwise `break`s to the no-alert return. -/
def checkSLOBurnAlerts (slo : ISLO) (burnRate : ℚ) (webhook : Option IWebhook)
    (now : ℤ) : CheckResult :=
  match slo.burnAlerts with
  | none => { shouldAlert := false, severity := none }
  | some ba =>
    if ¬ba.enabled ∨ ba.thresholds = [] then
      { shouldAlert := false, severity := none }
    else
      match webhook with
      | none => { shouldAlert := false, severity := none }
      | some _ =>
        match matchedThreshold ba.thresholds burnRate with
        | none => { shouldAlert := false, severity := none }
        | some threshold =>
          if shouldAlertNow slo.lastBurnAlertState threshold.severity now then
            { shouldAlert := true, severity := some threshold.severity }
          else
            { shouldAlert := false, severity := none }

def exampleWebhook : IWebhook := { id := "wh" }

/-- SLO for the hysteresis scenario: one warning threshold at burn rate
1, prior warning alert 30 minutes ago. -/
def sloWarn30 : ISLO :=
  { exampleSLO with
    burnAlerts := some { enabled := true, thresholds := [⟨1, .warning⟩] }
    lastBurnAlertState := some { severity := .warning, timestamp := -1800000 } }

/-- Same but the prior alert is 90 minutes old. -/
def sloWarn90 : ISLO :=
  { exampleSLO with
    burnAlerts := some { enabled := true, thresholds := [⟨1, .warning⟩] }
    lastBurnAlertState := some { severity := .warning, timestamp := -5400000 } }

/-- Two-rung ladder, prior warning alert one minute ago. -/
def sloCritEsc : ISLO :=
  { exampleSLO with
    burnAlerts := some
      { enabled := true, thresholds := [⟨1, .warning⟩, ⟨3, .critical⟩] }
    lastBurnAlertState := some { severity := .warning, timestamp := -60000 } }

/-- Two-rung ladder, no prior alert. -/
def sloLadder : ISLO :=
  { exampleSLO with
    burnAlerts := some
      { enabled := true, thresholds := [⟨1, .warning⟩, ⟨3, .critical⟩] }
    lastBurnAlertState := none }

lemma shouldAlertNow_eq_true_iff (lastAlert : Option BurnAlertState)
    (sev : Severity) (now : ℤ) :
    shouldAlertNow lastAlert sev now = true ↔
      (lastAlert = none ∨
        ∃ la, lastAlert = some la ∧
          (la.severity ≠ sev ∨ la.timestamp < now - 3600000)) := by
  cases lastAlert with
  | none => simp [shouldAlertNow]
  | some la =>
    simp only [shouldAlertNow, Bool.or_eq_true, decide_eq_true_eq]
    constructor
    · intro h
      exact Or.inr ⟨la, rfl, by norm_num at h ⊢; exact h⟩
    · rintro (h | ⟨la2, hla2, h⟩)
      · cases h
      · cases Option.some.injEq la la2 ▸ hla2
        norm_num
        norm_num at h
        exact h

/-- C7: given a matched threshold, the alert decision is exactly the
hysteresis rule — alert iff there is no prior state, or the severity
changed, or the prior alert is older than one hour; and the three
concrete scenarios: a 30-minute-old warning suppresses a new warning, a
90-minute-old warning does not, and a critical match fires immediately. -/
theorem checkSLOBurnAlerts_hysteresis (slo : ISLO) (ba : BurnAlertsConfig)
    (wh : IWebhook) (burnRate : ℚ) (now : ℤ) (t : BurnThreshold)
    (hba : slo.burnAlerts = some ba) (hen : ba.enabled = true)
    (hne : ba.thresholds ≠ [])
    (hm : matchedThreshold ba.thresholds burnRate = some t) :
    ((checkSLOBurnAlerts slo burnRate (some wh) now).shouldAlert = true ↔
      (slo.lastBurnAlertState = none ∨
        ∃ la, slo.lastBurnAlertState = some la ∧
          (la.severity ≠ t.severity ∨ la.timestamp < now - 3600000))) ∧
    checkSLOBurnAlerts sloWarn30 2 (some exampleWebhook) 0
      = { shouldAlert := false, severity := none } ∧
    checkSLOBurnAlerts sloWarn90 2 (some exampleWebhook) 0
      = { shouldAlert := true, severity := some .warning } ∧
    checkSLOBurnAlerts sloCritEsc 4 (some exampleWebhook) 0
      = { shouldAlert := true, severity := some .critical } := by
  refine ⟨?_, by decide, by decide, by decide⟩
  simp only [checkSLOBurnAlerts, hba]
  rw [if_neg (by simp [hen, hne])]
  rw [hm]
  dsimp only
  by_cases h : shouldAlertNow slo.lastBurnAlertState t.severity now = true
  · rw [if_pos h]
    simpa using (shouldAlertNow_eq_true_iff slo.lastBurnAlertState t.severity now).mp h
  · rw [if_neg h]
    simp only [show (false = true) = False by simp, false_iff]
    intro hcon
    exact h ((shouldAlertNow_eq_true_iff slo.lastBurnAlertState t.severity now).mpr hcon)

/-- Witness for C7, applied at the 90-minute scenario (prior warning,
new warning match, burn rate 2). -/
theorem checkSLOBurnAlerts_hysteresis_witness :
    ((checkSLOBurnAlerts sloWarn90 2 (some exampleWebhook) 0).shouldAlert = true ↔
      (sloWarn90.lastBurnAlertState = none ∨
        ∃ la, sloWarn90.lastBurnAlertState = some la ∧
          (la.severity ≠ Severity.warning ∨ la.timestamp < 0 - 3600000))) ∧
    checkSLOBurnAlerts sloWarn30 2 (some exampleWebhook) 0
      = { shouldAlert := false, severity := none } ∧
    checkSLOBurnAlerts sloWarn90 2 (some exampleWebhook) 0
      = { shouldAlert := true, severity := some .warning } ∧
    checkSLOBurnAlerts sloCritEsc 4 (some exampleWebhook) 0
      = { shouldAlert := true, severity := some .critical } :=
  checkSLOBurnAlerts_hysteresis sloWarn90
    { enabled := true, thresholds := [⟨1, .warning⟩] } exampleWebhook 2 0
    ⟨1, .warning⟩ rfl rfl (by decide) (by decide)

lemma mem_sortThresholdsDesc {t : BurnThreshold} {l : List BurnThreshold} :
    t ∈ sortThresholdsDesc l ↔ t ∈ l :=
  (List.perm_insertionSort thresholdGE l).mem_iff

lemma find?_sorted_is_max (l : List BurnThreshold)
    (hs : List.Pairwise thresholdGE l) (br : ℚ) (t : BurnThreshold)
    (hf : l.find? (fun u => decide (u.burnRate ≤ br)) = some t) :
    ∀ u ∈ l, u.burnRate ≤ br → u.burnRate ≤ t.burnRate := by
  induction l with
  | nil => cases hf
  | cons a l ih =>
    by_cases h : a.burnRate ≤ br
    · rw [List.find?_cons_of_pos _ (by simpa using h)] at hf
      cases hf
      intro u hu _
      rcases List.mem_cons.mp hu with h2 | h2
      · exact h2 ▸ le_refl _
      · exact (List.pairwise_cons.mp hs).1 u h2
    · rw [List.find?_cons_of_neg _ (by simpa using h)] at hf
      intro u hu hub
      rcases List.mem_cons.mp hu with h2 | h2
      · exact absurd (h2 ▸ hub) h
      · exact ih (List.pairwise_cons.mp hs).2 hf u h2 hub

/-- C8: the candidate threshold of `checkSLOBurnAlerts` is a threshold
whose configured `burnRate` is at most the current burn rate, and among
all such thresholds its `burnRate` is the highest; with the ladder
`[{1, warning}, {3, critical}]` and burn rate `4` the matched severity
is `critical`; when every threshold exceeds the burn rate, no alert
fires. -/
theorem checkSLOBurnAlerts_threshold_selection :
    (∀ (thresholds : List BurnThreshold) (br : ℚ) (t : BurnThreshold),
        matchedThreshold thresholds br = some t →
          t.burnRate ≤ br ∧
          ∀ u ∈ thresholds, u.burnRate ≤ br → u.burnRate ≤ t.burnRate) ∧
    checkSLOBurnAlerts sloLadder 4 (some exampleWebhook) 0
      = { shouldAlert := true, severity := some .critical } ∧
    (∀ (slo : ISLO) (ba : BurnAlertsConfig) (br : ℚ) (wh : Option IWebhook)
        (now : ℤ),
        slo.burnAlerts = some ba → (∀ u ∈ ba.thresholds, br < u.burnRate) →
        (checkSLOBurnAlerts slo br wh now).shouldAlert = false) := by
  refine ⟨?_, by decide, ?_⟩
  · intro thresholds br t hm
    unfold matchedThreshold at hm
    have hle : t.burnRate ≤ br := by simpa using List.find?_some hm
    refine ⟨hle, fun u hu hub => ?_⟩
    exact find?_sorted_is_max (sortThresholdsDesc thresholds)
      (List.sorted_insertionSort thresholdGE thresholds) br t hm u
      (mem_sortThresholdsDesc.mpr hu) hub
  · intro slo ba br wh now hba hall
    have hnone : matchedThreshold ba.thresholds br = none := by
      unfold matchedThreshold
      rw [List.find?_eq_none]
      intro u hu
      simp only [decide_eq_true_eq]
      exact not_le.mpr (hall u (mem_sortThresholdsDesc.mp hu))
    simp only [checkSLOBurnAlerts, hba]
    by_cases h1 : ¬ba.enabled ∨ ba.thresholds = []
    · rw [if_pos h1]
    · rw [if_neg h1]
      cases wh with
      | none => rfl
      | some w2 =>
        dsimp only
        rw [hnone]

/-- Witness for C8, applying the selection part at the concrete ladder
`[{1, warning}, {3, critical}]` and burn rate `4`. -/
theorem checkSLOBurnAlerts_threshold_selection_witness :
    (⟨3, .critical⟩ : BurnThreshold).burnRate ≤ (4 : ℚ) ∧
    ∀ u ∈ [(⟨1, .warning⟩ : BurnThreshold), ⟨3, .critical⟩],
      u.burnRate ≤ (4 : ℚ) →
        u.burnRate ≤ (⟨3, .critical⟩ : BurnThreshold).burnRate :=
  checkSLOBurnAlerts_threshold_selection.1
    [⟨1, .warning⟩, ⟨3, .critical⟩] 4 ⟨3, .critical⟩ (by decide)

/-- One webhook notification dispatch, as observed by the notification
transport. -/
structure SentNotification where
  webhook : IWebhook
  severity : Severity
  burnRate : ℚ
  sentAt : ℤ
deriving DecidableEq, Repr

/-- The mutable state the alert pipeline can touch: the SLO's persisted
`lastBurnAlertState` and the list of notifications dispatched so far. -/
structure AlertWorld where
  lastBurnAlertState : Option BurnAlertState
  sent : List SentNotification
deriving DecidableEq, Repr

/-- `sendSLOBurnAlert` (lines 11–69 of `sloAlerts.ts`): renders a
message and dispatches exactly one webhook notification
(`handleSendGenericWebhook`); it reads the SLO but writes nothing to it
— in particular it does not touch `lastBurnAlertState`. -/
def sendSLOBurnAlertEff (burnRate : ℚ) (severity : Severity)
    (webhook : IWebhook) (now : ℤ) (w : AlertWorld) : AlertWorld :=
  { w with sent := w.sent ++ [⟨webhook, severity, burnRate, now⟩] }

/-- `checkSLOBurnAlerts` with the ambient state threaded through
explicitly.  Every statement of its body is a read, a comparison, a sort
of a copied array, or a log call, so each branch returns the state
unchanged next to the decision it computes. -/
def checkSLOBurnAlertsEff (slo : ISLO) (burnRate : ℚ)
    (webhook : Option IWebhook) (now : ℤ) (w : AlertWorld) :
    CheckResult × AlertWorld :=
  match slo.burnAlerts with
  | none => ({ shouldAlert := false, severity := none }, w)
  | some ba =>
    if ¬ba.enabled ∨ ba.thresholds = [] then
      ({ shouldAlert := false, severity := none }, w)
    else
      match webhook with
      | none => ({ shouldAlert := false, severity := none }, w)
      | some _ =>
        match matchedThreshold ba.thresholds burnRate with
        | none => ({ shouldAlert := false, severity := none }, w)
        | some threshold =>
          if shouldAlertNow slo.lastBurnAlertState threshold.severity now then
            ({ shouldAlert := true, severity := some threshold.severity }, w)
          else
            ({ shouldAlert := false, severity := none }, w)

lemma checkSLOBurnAlertsEff_eq (slo : ISLO) (br : ℚ) (wh : Option IWebhook)
    (now : ℤ) (w : AlertWorld) :
    checkSLOBurnAlertsEff slo br wh now w
      = (checkSLOBurnAlerts slo br wh now, w) := by
  unfold checkSLOBurnAlertsEff checkSLOBurnAlerts
  cases slo.burnAlerts with
  | none => rfl
  | some ba =>
    dsimp only
    by_cases h1 : ¬ba.enabled ∨ ba.thresholds = []
    · rw [if_pos h1, if_pos h1]
    · rw [if_neg h1, if_neg h1]
      cases wh with
      | none => rfl
      | some w2 =>
        dsimp only
        cases matchedThreshold ba.thresholds br with
        | none => rfl
        | some t =>
          dsimp only
          by_cases h2 : shouldAlertNow slo.lastBurnAlertState t.severity now = true
          · rw [if_pos h2, if_pos h2]
          · rw [if_neg h2, if_neg h2]

/-- C10: `checkSLOBurnAlerts` is a pure decision step — it leaves
`lastBurnAlertState` and the dispatched-notification log untouched and
returns exactly the `{shouldAlert, severity?}` decision — while the
dispatch itself happens only in `sendSLOBurnAlert`, which appends one
notification and still does not modify `lastBurnAlertState` (the state
write lives in the caller pipeline). -/
theorem checkSLOBurnAlerts_pure (slo : ISLO) (br : ℚ) (wh : Option IWebhook)
    (now : ℤ) (w : AlertWorld) :
    (checkSLOBurnAlertsEff slo br wh now w).2.lastBurnAlertState
        = w.lastBurnAlertState ∧
    (checkSLOBurnAlertsEff slo br wh now w).2.sent = w.sent ∧
    (checkSLOBurnAlertsEff slo br wh now w).1
        = checkSLOBurnAlerts slo br wh now ∧
    ∀ (br2 : ℚ) (sev : Severity) (wh2 : IWebhook) (now2 : ℤ),
      (sendSLOBurnAlertEff br2 sev wh2 now2 w).lastBurnAlertState
          = w.lastBurnAlertState ∧
      (sendSLOBurnAlertEff br2 sev wh2 now2 w).sent
          = w.sent ++ [⟨wh2, sev, br2, now2⟩] := by
  rw [checkSLOBurnAlertsEff_eq]
  exact ⟨rfl, rfl, rfl, fun _ _ _ _ => ⟨rfl, rfl⟩⟩

end SLOVerification
